import Mathlib

/-!
# QuantifyModel (ScramNodeQuantify.cpp): a shallow embedding

The Node addon entry point `QuantifyModel` is an orchestration of external
collaborators (settings/model adapters, the risk-analysis engine, the metadata
extractors, the JSON report writer, the steady clock, the random device and the
filesystem).  The collaborators are gathered in `Env`; every call the function
makes is recorded, in program order, in the `trace` of a `World`, next to the
set of files that exist.  C++ exceptions are values of `Thrown`.
-/

namespace ScramNode

/-! ## Exceptions and outcomes -/

/-- A C++ exception in flight: one derived from `std::exception` (with its
`what()` text) or anything else (only `catch (...)` handles it). -/
inductive Thrown where
  | std (what : String)
  | nonStd
  deriving DecidableEq, Repr

/-- Result of a call that either returns a value or throws. -/
inductive Outcome (α : Type) where
  | ok (value : α)
  | threw (ex : Thrown)
  deriving DecidableEq, Repr

/-! ## JavaScript values seen through N-API -/

/-- A JavaScript object handle (`Napi::Object`), identified by its contents. -/
structure NapiObject where
  json : String
  deriving DecidableEq, Repr

/-- A JavaScript value (`Napi::Value`). -/
inductive NapiValue where
  | undefined
  | null
  | boolean (b : Bool)
  | number (n : Int)
  | string (s : String)
  | object (o : NapiObject)
  deriving DecidableEq, Repr

/-- The test `Napi::Value::IsObject()`. -/
def NapiValue.IsObject : NapiValue → Bool
  | .object _ => true
  | _ => false

/-- The cast `Napi::Value::As<Napi::Object>()`; only called on values that passed `IsObject()`. -/
def NapiValue.AsObject : NapiValue → NapiObject
  | .object o => o
  | _ => ⟨""⟩

/-- The argument `info[i]` of `Napi::CallbackInfo`: the argument, or `undefined` past the end. -/
def arg (info : List NapiValue) (i : Nat) : NapiValue :=
  info.getD i NapiValue.undefined

/-- Which JavaScript error class is thrown. -/
inductive JsErrorKind where
  | TypeError
  | Error
  deriving DecidableEq, Repr

/-- A pending JavaScript exception (`ThrowAsJavaScriptException`). -/
structure JsError where
  kind : JsErrorKind
  message : String
  deriving DecidableEq, Repr

/-- What the JavaScript caller observes: the returned object, or a thrown error
(the C++ function then returns `env.Null()`). -/
inductive JsResult where
  | returned (value : NapiObject)
  | thrown (error : JsError)
  deriving DecidableEq, Repr

/-! ## Engine data -/

/-- Modelled from the spec: the enum `scram::core::Algorithm` is declared in a header
that is not part of the sources at hand; the code only compares the selector with
`kBdd`, the decision-diagram-based algorithm, every other selector is an alternative. -/
inductive Algorithm where
  | kBdd
  | alternative (tag : Nat)
  deriving DecidableEq, Repr

/-- Modelled from the spec: the class `scram::core::Settings` is declared in a header
outside the sources at hand; of the Configuration the code reads only the analysis
algorithm selector, `algorithm()`. Everything else it carries is `tuning`. -/
structure Settings where
  algorithm : Algorithm
  tuning : String
  deriving DecidableEq, Repr

/-- Modelled from the spec: the native model produced by `ScramNodeModel` (its class is
declared outside the sources at hand); the code only hands it to the engine. -/
structure Model where
  name : String
  deriving DecidableEq, Repr

/-- Modelled from the spec: the record `scram::core::RiskAnalysis::RuntimeMetrics` is
declared in `risk_analysis.h`, outside the sources at hand; it is the pair (analysis
duration, total duration), the two fields the code assigns. The fields are `double`;
each is represented by the exact value of the `double` it holds. -/
structure RuntimeMetrics where
  analysis_seconds : Rat
  total_runtime_seconds : Rat
  deriving DecidableEq, Repr

/-- Modelled from the spec: the fault-tree sub-result (declared outside the sources at
hand), which records whether an adaptive computation strategy was used. -/
structure FaultTreeAnalysis where
  adaptive_mode_used : Bool
  deriving DecidableEq, Repr

/-- Modelled from the spec: one entry of `analysis.results()` (declared outside the
sources at hand); it may or may not carry a fault-tree sub-result, the pointer
`fault_tree_analysis` the code tests before dereferencing. -/
structure Result where
  fault_tree_analysis : Option FaultTreeAnalysis
  deriving DecidableEq, Repr

/-- Modelled from the spec: one entry of `analysis.event_tree_results()` (declared
outside the sources at hand); the code only asks whether there is any. -/
structure EtaResult where
  id : Nat
  deriving DecidableEq, Repr

/-- Modelled from the spec: the engine object `scram::core::RiskAnalysis` (declared in
`risk_analysis.h`, outside the sources at hand) as far as the code reads or writes it:
the Result Set, the event-tree results and the runtime metrics attached to it. -/
structure RiskAnalysis where
  results : List Result
  event_tree_results : List EtaResult
  runtime_metrics : Option RuntimeMetrics
  deriving DecidableEq, Repr

/-- Modelled from the spec: the setter `analysis.set_runtime_metrics(metrics)` (defined
outside the sources at hand) attaches the record to the engine object. -/
def RiskAnalysis.set_runtime_metrics (a : RiskAnalysis) (m : RuntimeMetrics) : RiskAnalysis :=
  { a with runtime_metrics := some m }

/-! ## Calls, traces and the world -/

/-- The calls `QuantifyModel` makes to its collaborators. -/
inductive Call where
  | ScramNodeOptions
  | ScramNodeModel
  | RiskAnalysis_ctor
  | steady_clock_now (reading : Int)
  | Analyze
  | set_runtime_metrics (metrics : RuntimeMetrics)
  | ScramNodeReport
  | ScramNodeExtractMetadataFromFile (path : String)
  | temp_directory_path
  | random_device
  | ofstream_open (path : String)
  | ScramNodeReportToJsonStream (flag : Bool)
  | flush
  | is_open
  | close
  | fs_exists (path : String)
  | fs_remove (path : String)
  deriving DecidableEq, Repr

/-- A call together with whether it completed normally (`false`: it threw, or, for
`ofstream_open`, the stream is in a failed state). -/
structure Event where
  call : Call
  completed : Bool
  deriving DecidableEq, Repr

/-- The metadata extraction calls (lines 81 and 85). -/
def Call.isExtraction : Call → Bool
  | .ScramNodeReport => true
  | .ScramNodeExtractMetadataFromFile _ => true
  | _ => false

/-- The steps of the persistence attempt (lines 89-143): temp-directory resolution,
the random device, opening the file, the report writer and the cleanup. The clock
reading for the timestamp is not among them, since readings are also taken around the
engine run. -/
def Call.isPersistence : Call → Bool
  | .temp_directory_path => true
  | .random_device => true
  | .ofstream_open _ => true
  | .ScramNodeReportToJsonStream _ => true
  | .flush => true
  | .is_open => true
  | .close => true
  | .fs_exists _ => true
  | .fs_remove _ => true
  | _ => false

/-- The report writer call (line 121). -/
def Call.isWriter : Call → Bool
  | .ScramNodeReportToJsonStream _ => true
  | _ => false

/-- Files that exist, and the calls made so far. -/
structure World where
  files : List String
  trace : List Event
  deriving DecidableEq, Repr

/-- Append one event to the trace. -/
def World.log (w : World) (c : Call) (completed : Bool) : World :=
  { w with trace := w.trace ++ [⟨c, completed⟩] }

/-- A successful `std::ofstream` open creates the file (or truncates an existing one). -/
def World.create (w : World) (path : String) : World :=
  { w with files := if path ∈ w.files then w.files else path :: w.files }

/-- A successful `std::filesystem::remove`. -/
def World.delete (w : World) (path : String) : World :=
  { w with files := w.files.filter (fun p => p ≠ path) }

/-- The state of the `std::ofstream out` of line 112: whether a file is associated with
it, whether an exception mask has been set on it, and whether it is in an error state.
The code reads `is_open`; the other two are there for the report writer, `flush` and
`close` to depend on. -/
structure Stream where
  is_open : Bool
  exceptions : Bool
  failed : Bool
  deriving DecidableEq, Repr

/-- The stream right after a successful open: associated with the file, no exception
mask, no error. -/
def openedStream : Stream :=
  { is_open := true, exceptions := false, failed := false }

/-- The collaborators and the platform, as seen by one invocation. -/
structure Env where
  /-- The adapter `ScramNodeOptions(nodeOptions)`. -/
  ScramNodeOptions : NapiObject → Outcome Settings
  /-- The adapter `ScramNodeModel(nodeModel)`. -/
  ScramNodeModel : NapiObject → Outcome Model
  /-- The constructor `scram::core::RiskAnalysis(model, settings)`. -/
  RiskAnalysis_ctor : Model → Settings → Outcome RiskAnalysis
  /-- The run `analysis.Analyze()`: the analysis object after the run. -/
  Analyze : RiskAnalysis → Outcome RiskAnalysis
  /-- The tick count returned by the k-th call of `steady_clock::now()` in this invocation. -/
  steady_clock_now : Nat → Int
  /-- The conversion `std::chrono::duration<double>(d).count()` of a tick count `d` to
  seconds: the exact value of the resulting `double`. -/
  duration_to_double : Int → Rat
  /-- Converting a non-negative tick count and dividing by the positive clock period
  never gives a negative `double`. -/
  duration_to_double_nonneg : ∀ d : Int, 0 ≤ d → 0 ≤ duration_to_double d
  /-- The full extraction `ScramNodeReport(env, analysis)`. -/
  ScramNodeReport : RiskAnalysis → Outcome NapiObject
  /-- The fallback extraction `ScramNodeExtractMetadataFromFile(env, path, analysis)`. -/
  ScramNodeExtractMetadataFromFile : String → RiskAnalysis → Outcome NapiObject
  /-- The lookup `std::filesystem::temp_directory_path()`. -/
  temp_directory_path : Outcome String
  /-- Constructing `std::random_device` and drawing one value from it. -/
  random_device : Outcome Nat
  /-- The `operator/` of `std::filesystem::path`. -/
  path_append : String → String → String
  /-- Whether `std::ofstream out(path, std::ios::binary)` opens the file. -/
  ofstream_open : String → Bool
  /-- The report writer `ScramNodeReportToJsonStream(out, analysis, flag)`, which gets
  the stream by reference: what it does and the state it leaves the stream in. -/
  ScramNodeReportToJsonStream : Stream → RiskAnalysis → Bool → Outcome Unit × Stream
  /-- The call `out.flush()`: it throws when the stream's exception mask asks for it. -/
  ofstream_flush : Stream → Outcome Unit × Stream
  /-- The call `out.close()`: it throws when the stream's exception mask asks for it. -/
  ofstream_close : Stream → Outcome Unit × Stream
  /-- The query `std::filesystem::exists(path)`: `some what` when it throws `filesystem_error`. -/
  fs_exists_error : String → Option String
  /-- The call `std::filesystem::remove(path)`: `some what` when it throws `filesystem_error`. -/
  fs_remove_error : String → Option String

/-! ## The code -/

/-- Lines 64-70: the loop over `analysis.results()` with its `break`. -/
def scanResults : List Result → Bool
  | [] => false
  | result :: rest =>
    match result.fault_tree_analysis with
    | some fta => if fta.adaptive_mode_used then true else scanResults rest
    | none => scanResults rest

/-- Lines 64-76: the value of `has_adaptive` when line 78 is reached. -/
def has_adaptive (settings : Settings) (analysis : RiskAnalysis) : Bool :=
  let has_adaptive := scanResults analysis.results
  if !has_adaptive && settings.algorithm == Algorithm.kBdd
      && !analysis.event_tree_results.isEmpty then
    true
  else
    has_adaptive

/-- Lines 78-86: the metadata extraction, by the full report or by the fallback with
an empty path: what the chosen extractor does, and which call it is. -/
def extractMetadata (env : Env) (settings : Settings) (analysis : RiskAnalysis) :
    Outcome NapiObject × Call :=
  if has_adaptive settings analysis then
    (env.ScramNodeReport analysis, .ScramNodeReport)
  else
    (env.ScramNodeExtractMetadataFromFile "" analysis, .ScramNodeExtractMetadataFromFile "")

/-- Two's-complement wrap to the signed 64-bit range, the `rep` of the clock's
`duration`: what the subtraction of two tick counts yields in a 64-bit register. -/
def wrap64 (x : Int) : Int :=
  (x + 2 ^ 63) % 2 ^ 64 - 2 ^ 63

/-- Line 55: `std::chrono::duration<double>(analysis_end - analysis_start).count()`, the
64-bit tick difference converted to `double` seconds. -/
def durationSeconds (env : Env) (analysis_start analysis_end : Int) : Rat :=
  env.duration_to_double (wrap64 (analysis_end - analysis_start))

/-- Lines 58-60: the metrics record built from `analysis_seconds`. -/
def buildMetrics (analysis_seconds : Rat) : RuntimeMetrics :=
  { analysis_seconds := analysis_seconds, total_runtime_seconds := analysis_seconds }

/-- Lines 50-60: the metrics record for the two clock readings taken around `Analyze()`. -/
def measuredMetrics (env : Env) : RuntimeMetrics :=
  buildMetrics (durationSeconds env (env.steady_clock_now 0) (env.steady_clock_now 1))

/-- Lines 43-86: adapters, engine construction, the timed run, the metrics and the
metadata extraction. -/
def analyzeAndExtract (env : Env) (nodeOptions nodeModel : NapiObject) (w : World) :
    Outcome (RiskAnalysis × NapiObject) × World :=
  match env.ScramNodeOptions nodeOptions with
  | .threw ex => (.threw ex, w.log .ScramNodeOptions false)
  | .ok settings =>
    let w := w.log .ScramNodeOptions true
    match env.ScramNodeModel nodeModel with
    | .threw ex => (.threw ex, w.log .ScramNodeModel false)
    | .ok model =>
      let w := w.log .ScramNodeModel true
      match env.RiskAnalysis_ctor model settings with
      | .threw ex => (.threw ex, w.log .RiskAnalysis_ctor false)
      | .ok analysis =>
        let w := w.log .RiskAnalysis_ctor true
        let analysis_start := env.steady_clock_now 0
        let w := w.log (.steady_clock_now analysis_start) true
        match env.Analyze analysis with
        | .threw ex => (.threw ex, w.log .Analyze false)
        | .ok analysis =>
          let w := w.log .Analyze true
          let analysis_end := env.steady_clock_now 1
          let w := w.log (.steady_clock_now analysis_end) true
          let analysis_seconds := durationSeconds env analysis_start analysis_end
          let metrics := buildMetrics analysis_seconds
          let analysis := analysis.set_runtime_metrics metrics
          let w := w.log (.set_runtime_metrics metrics) true
          match extractMetadata env settings analysis with
          | (.threw ex, call) => (.threw ex, w.log call false)
          | (.ok metadata, call) => (.ok (analysis, metadata), w.log call true)

/-- Hexadecimal digits of a value as `operator<<` prints them under `std::hex`:
lowercase, no prefix, no leading zeros. -/
def hex (value : Nat) : String :=
  String.mk (Nat.toDigits 16 value)

/-- Decimal rendering of a signed tick count by `operator<<`. -/
def decimal (t : Int) : String :=
  match t with
  | Int.ofNat n => String.mk (Nat.toDigits 10 n)
  | Int.negSucc n => "-" ++ String.mk (Nat.toDigits 10 (n + 1))

/-- Lines 97-104: the lambda `randomSuffix`; the drawn value is a `std::uint64_t`. -/
def randomSuffix (env : Env) (w : World) : Outcome String × World :=
  match env.random_device with
  | .threw ex => (.threw ex, w.log .random_device false)
  | .ok value => (.ok (hex (value % 2 ^ 64)), w.log .random_device true)

/-- Lines 107-108: the contents of the `filename` stream. -/
def fileName (timestamp : Int) (suffix : String) : String :=
  "scram-report-" ++ decimal timestamp ++ "-" ++ suffix ++ ".json"

/-- Lines 89-110: the lambda that computes `reportPath`. -/
def reportPath (env : Env) (w : World) : Outcome String × World :=
  match env.temp_directory_path with
  | .threw (.std what) =>
    (.threw (.std ("Unable to resolve temp directory: " ++ what)), w.log .temp_directory_path false)
  | .threw .nonStd => (.threw .nonStd, w.log .temp_directory_path false)
  | .ok tempDir =>
    let w := w.log .temp_directory_path true
    let timestamp := env.steady_clock_now 2
    let w := w.log (.steady_clock_now timestamp) true
    match randomSuffix env w with
    | (.threw ex, w) => (.threw ex, w)
    | (.ok suffix, w) => (.ok (env.path_append tempDir (fileName timestamp suffix)), w)

/-- Lines 126-130: removal after a successful write; a `std::exception` is ignored. -/
def removeAfterWrite (env : Env) (path : String) (w : World) : World :=
  match env.fs_remove_error path with
  | none => (w.log (.fs_remove path) true).delete path
  | some _ => w.log (.fs_remove path) false

/-- Lines 136-142: cleanup after a failed write; anything thrown is ignored. -/
def removeAfterFailure (env : Env) (path : String) (w : World) : World :=
  match env.fs_exists_error path with
  | some _ => w.log (.fs_exists path) false
  | none =>
    let w := w.log (.fs_exists path) true
    if path ∈ w.files then
      match env.fs_remove_error path with
      | none => (w.log (.fs_remove path) true).delete path
      | some _ => w.log (.fs_remove path) false
    else
      w

/-- Lines 131-143: the handler of the write attempt. The `close` of line 134 is not
inside a `try`, so what it throws leaves the handler; the cleanup after it ignores
anything thrown. -/
def handleWriteFailure (env : Env) (path : String) (out : Stream) (w : World) :
    Outcome Unit × World :=
  let w := w.log .is_open true
  if out.is_open then
    match env.ofstream_close out with
    | (.ok _, _) => (.ok (), removeAfterFailure env path (w.log .close true))
    | (.threw ex, _) => (.threw ex, w.log .close false)
  else
    (.ok (), removeAfterFailure env path w)

/-- Lines 120-143: the write attempt on the open stream and its cleanup. A standard
exception from the writer, from `flush` or from `close` enters the handler; anything
else leaves the block. -/
def writeReport (env : Env) (analysis : RiskAnalysis) (path : String) (w : World) :
    Outcome Unit × World :=
  match env.ScramNodeReportToJsonStream openedStream analysis false with
  | (.threw .nonStd, _) => (.threw .nonStd, w.log (.ScramNodeReportToJsonStream false) false)
  | (.threw (.std _), out) =>
    handleWriteFailure env path out (w.log (.ScramNodeReportToJsonStream false) false)
  | (.ok _, out) =>
    let w := w.log (.ScramNodeReportToJsonStream false) true
    match env.ofstream_flush out with
    | (.threw .nonStd, _) => (.threw .nonStd, w.log .flush false)
    | (.threw (.std _), out) => handleWriteFailure env path out (w.log .flush false)
    | (.ok _, out) =>
      let w := w.log .flush true
      match env.ofstream_close out with
      | (.threw .nonStd, _) => (.threw .nonStd, w.log .close false)
      | (.threw (.std _), out) => handleWriteFailure env path out (w.log .close false)
      | (.ok _, _) => (.ok (), removeAfterWrite env path (w.log .close true))

/-- Lines 89-143: naming, opening and writing the temporary report file. -/
def persistReport (env : Env) (analysis : RiskAnalysis) (w : World) : Outcome Unit × World :=
  match reportPath env w with
  | (.threw ex, w) => (.threw ex, w)
  | (.ok path, w) =>
    if env.ofstream_open path then
      let w := (w.log (.ofstream_open path) true).create path
      writeReport env analysis path w
    else
      (.threw (.std ("Failed to create temporary SCRAM report file: " ++ path)),
        w.log (.ofstream_open path) false)

/-- Lines 42-145: the body of the outer `try`. -/
def tryBlock (env : Env) (nodeOptions nodeModel : NapiObject) (w : World) :
    Outcome NapiObject × World :=
  match analyzeAndExtract env nodeOptions nodeModel w with
  | (.threw ex, w) => (.threw ex, w)
  | (.ok (analysis, metadata), w) =>
    match persistReport env analysis w with
    | (.threw ex, w) => (.threw ex, w)
    | (.ok _, w) => (.ok metadata, w)

/-- Lines 146-155: the two outer handlers. -/
def translate : Thrown → JsError
  | .std what => ⟨.Error, "SCRAM Error: " ++ what⟩
  | .nonStd => ⟨.Error, "SCRAM Error: Unknown exception occurred"⟩

/-- Lines 23-156: `QuantifyModel`, started with the files `files` present and an
empty trace. -/
def QuantifyModel (env : Env) (files : List String) (info : List NapiValue) : JsResult × World :=
  let w : World := ⟨files, []⟩
  if info.length < 2 then
    (.thrown ⟨.TypeError, "Settings and Model - both are required"⟩, w)
  else if !(arg info 0).IsObject then
    (.thrown ⟨.TypeError, "Settings object required"⟩, w)
  else if !(arg info 1).IsObject then
    (.thrown ⟨.TypeError, "Model object required"⟩, w)
  else
    let nodeOptions := (arg info 0).AsObject
    let nodeModel := (arg info 1).AsObject
    match tryBlock env nodeOptions nodeModel w with
    | (.ok metadata, w) => (.returned metadata, w)
    | (.threw ex, w) => (.thrown (translate ex), w)

/-! ## Reading rendered numbers back -/

/-- The value of one digit character, `0`-`9` and `a`-`f`. -/
def digitValue (c : Char) : Nat :=
  if c.isDigit then c.toNat - '0'.toNat else c.toNat - 'a'.toNat + 10

/-- The number a digit string denotes in the given base. -/
def readDigits (base : Nat) (cs : List Char) : Nat :=
  cs.foldl (fun acc c => acc * base + digitValue c) 0

/-! ## Concrete environments -/

/-- Path concatenation on a POSIX system for a relative right operand. -/
def posixAppend (dir name : String) : String :=
  if dir = "" ∨ dir.back = '/' then dir ++ name else dir ++ "/" ++ name

/-- An environment in which every collaborator succeeds; the engine finds no
adaptive result, so the fallback extraction is used. The steady clock ticks 2^30 times
per second, so that the conversion of a small tick count to `double` seconds is exact. -/
def calmEnv : Env where
  ScramNodeOptions := fun o => .ok ⟨.alternative 0, o.json⟩
  ScramNodeModel := fun o => .ok ⟨o.json⟩
  RiskAnalysis_ctor := fun _ _ => .ok ⟨[], [], none⟩
  Analyze := fun a => .ok { a with results := [⟨none⟩, ⟨some ⟨false⟩⟩] }
  steady_clock_now := fun k => 1000 + 250 * (k : Int)
  duration_to_double := fun d => (d : Rat) / 2 ^ 30
  duration_to_double_nonneg := fun _ hd => div_nonneg (Int.cast_nonneg.mpr hd) (by norm_num)
  ScramNodeReport := fun _ => .ok ⟨"full"⟩
  ScramNodeExtractMetadataFromFile := fun _ _ => .ok ⟨"meta"⟩
  temp_directory_path := .ok "/tmp"
  random_device := .ok 255
  path_append := posixAppend
  ofstream_open := fun _ => true
  ScramNodeReportToJsonStream := fun out _ _ => (.ok (), out)
  ofstream_flush := fun out => (.ok (), out)
  ofstream_close := fun out => (.ok (), { out with is_open := false })
  fs_exists_error := fun _ => none
  fs_remove_error := fun _ => none

/-- The settings adapter rejects its input. -/
def badSettingsEnv : Env :=
  { calmEnv with ScramNodeOptions := fun _ => .threw (.std "unknown option") }

/-- The model adapter rejects its input. -/
def badModelEnv : Env :=
  { calmEnv with ScramNodeModel := fun _ => .threw (.std "undefined gate") }

/-- The engine cannot be constructed. -/
def badEngineEnv : Env :=
  { calmEnv with RiskAnalysis_ctor := fun _ _ => .threw (.std "no fault tree") }

/-- The engine run fails with something that is not a `std::exception`. -/
def alienRunEnv : Env :=
  { calmEnv with Analyze := fun _ => .threw .nonStd }

/-- The metadata extraction fails. -/
def badExtractEnv : Env :=
  { calmEnv with ScramNodeExtractMetadataFromFile := fun _ _ => .threw (.std "no results") }

/-- The engine reports an adaptive fault-tree result, so the full report is used. -/
def adaptiveEnv : Env :=
  { calmEnv with Analyze := fun a => .ok { a with results := [⟨none⟩, ⟨some ⟨true⟩⟩] } }

/-- The temp directory cannot be resolved. -/
def noTempEnv : Env :=
  { calmEnv with temp_directory_path := .threw (.std "TMPDIR is not a directory") }

/-- The temporary file cannot be opened. -/
def readOnlyEnv : Env :=
  { calmEnv with ofstream_open := fun _ => false }

/-- The report writer fails with a `std::exception`. -/
def faultyWriterEnv : Env :=
  { calmEnv with
    ScramNodeReportToJsonStream := fun out _ _ =>
      (.threw (.std "disk full"), { out with failed := true }) }

/-- The report writer throws something that is not a `std::exception`. -/
def alienWriterEnv : Env :=
  { calmEnv with ScramNodeReportToJsonStream := fun out _ _ => (.threw .nonStd, out) }

/-- The report writer enables exceptions on the stream and a write fails: the writer
throws `std::ios_base::failure`, and so does every later `flush` or `close` of the
stream, which is left in the failed state. -/
def maskedWriterEnv : Env :=
  { calmEnv with
    ScramNodeReportToJsonStream := fun out _ _ =>
      (.threw (.std "basic_ios::clear: iostream error"),
        { out with exceptions := true, failed := true })
    ofstream_flush := fun out =>
      if out.exceptions && out.failed then
        (.threw (.std "basic_ios::clear: iostream error"), out)
      else (.ok (), out)
    ofstream_close := fun out =>
      if out.exceptions && out.failed then
        (.threw (.std "basic_ios::clear: iostream error"), { out with is_open := false })
      else (.ok (), { out with is_open := false }) }

/-- Two object arguments. -/
def twoObjects : List NapiValue :=
  [.object ⟨"settings"⟩, .object ⟨"model"⟩]

/-- The analysis object of `calmEnv` when the metadata is extracted. -/
def calmAnalysis : RiskAnalysis :=
  { results := [⟨none⟩, ⟨some ⟨false⟩⟩], event_tree_results := [],
    runtime_metrics := some (measuredMetrics calmEnv) }

/-- The temporary path `calmEnv` generates. -/
def calmPath : String :=
  "/tmp/scram-report-1500-ff.json"

/-! ## Rendering of numbers: reading digits back -/

theorem digitValue_digitChar : ∀ k, k < 16 → digitValue (Nat.digitChar k) = k := by
  decide

theorem digitChar_ne_minus (k : Nat) : Nat.digitChar k ≠ '-' := by
  by_cases h : k < 16
  · have key : ∀ j, j < 16 → Nat.digitChar j ≠ '-' := by decide
    exact key k h
  · unfold Nat.digitChar
    repeat rw [if_neg (by omega)]
    decide

theorem foldl_toDigitsCore (b : Nat) (hb : 2 ≤ b) (hb16 : b ≤ 16) :
    ∀ (fuel n : Nat) (ds : List Char), n < fuel →
      (Nat.toDigitsCore b fuel n ds).foldl (fun acc c => acc * b + digitValue c) 0
        = ds.foldl (fun acc c => acc * b + digitValue c) n := by
  intro fuel
  induction fuel with
  | zero => intro n ds h; omega
  | succ fuel ih =>
    intro n ds h
    have hmod : n % b < 16 := lt_of_lt_of_le (Nat.mod_lt _ (by omega)) hb16
    simp only [Nat.toDigitsCore]
    split
    · rename_i h0
      have hlt : n < b := by
        by_contra hge
        have : 0 < n / b := Nat.div_pos (by omega) (by omega)
        omega
      have hv := digitValue_digitChar _ hmod
      rw [Nat.mod_eq_of_lt hlt] at hv ⊢
      simp [List.foldl, hv]
    · rename_i h0
      have hn : n / b < fuel := by
        have : n / b < n := Nat.div_lt_self (by
          rcases Nat.eq_zero_or_pos n with h | h
          · subst h; simp at h0
          · exact h) hb
        omega
      rw [ih (n / b) _ hn]
      simp only [List.foldl, digitValue_digitChar _ hmod]
      congr 1
      exact Nat.div_add_mod' n b

theorem readDigits_toDigits (b : Nat) (hb : 2 ≤ b) (hb16 : b ≤ 16) (n : Nat) :
    readDigits b (Nat.toDigits b n) = n := by
  unfold readDigits Nat.toDigits
  rw [foldl_toDigitsCore b hb hb16 (n + 1) n [] (by omega)]
  rfl

theorem toDigits_injective (b : Nat) (hb : 2 ≤ b) (hb16 : b ≤ 16) (m n : Nat)
    (h : Nat.toDigits b m = Nat.toDigits b n) : m = n := by
  have := congrArg (readDigits b) h
  rwa [readDigits_toDigits b hb hb16, readDigits_toDigits b hb hb16] at this

theorem mem_toDigitsCore (b : Nat) :
    ∀ (fuel n : Nat) (ds : List Char) (c : Char), c ∈ Nat.toDigitsCore b fuel n ds →
      c ∈ ds ∨ ∃ k, c = Nat.digitChar k := by
  intro fuel
  induction fuel with
  | zero => intro n ds c h; left; simpa [Nat.toDigitsCore] using h
  | succ fuel ih =>
    intro n ds c h
    simp only [Nat.toDigitsCore] at h
    split at h
    · rcases List.mem_cons.mp h with h | h
      · exact Or.inr ⟨_, h⟩
      · exact Or.inl h
    · rcases ih _ _ _ h with h | h
      · rcases List.mem_cons.mp h with h | h
        · exact Or.inr ⟨_, h⟩
        · exact Or.inl h
      · exact Or.inr h

theorem minus_not_mem_toDigits (b n : Nat) : '-' ∉ Nat.toDigits b n := by
  intro h
  rcases mem_toDigitsCore b _ _ _ _ h with h | ⟨k, hk⟩
  · simp at h
  · exact digitChar_ne_minus k hk.symm

theorem toDigitsCore_ne_nil (b : Nat) :
    ∀ (fuel n : Nat) (ds : List Char), ds ≠ [] ∨ 0 < fuel → Nat.toDigitsCore b fuel n ds ≠ [] := by
  intro fuel
  induction fuel with
  | zero => intro n ds h; rcases h with h | h; simpa [Nat.toDigitsCore] using h; omega
  | succ fuel ih =>
    intro n ds _
    simp only [Nat.toDigitsCore]
    split
    · simp
    · exact ih _ _ (Or.inl (by simp))

theorem toDigits_ne_nil (b n : Nat) : Nat.toDigits b n ≠ [] :=
  toDigitsCore_ne_nil b _ _ _ (Or.inr (by omega))

/-- Splitting at the first separator: the parts before and after it are determined. -/
theorem split_at_separator (sep : Char) :
    ∀ (a₁ a₂ b₁ b₂ : List Char), sep ∉ a₁ → sep ∉ a₂ →
      a₁ ++ sep :: b₁ = a₂ ++ sep :: b₂ → a₁ = a₂ ∧ b₁ = b₂ := by
  intro a₁
  induction a₁ with
  | nil =>
    intro a₂ b₁ b₂ _ h₂ h
    cases a₂ with
    | nil => simpa using h
    | cons c t =>
      simp only [List.nil_append, List.cons_append, List.cons.injEq] at h
      exact absurd (h.1 ▸ List.mem_cons_self _ _) h₂
  | cons x t ih =>
    intro a₂ b₁ b₂ h₁ h₂ h
    cases a₂ with
    | nil =>
      simp only [List.nil_append, List.cons_append, List.cons.injEq] at h
      exact absurd (h.1 ▸ List.mem_cons_self _ _) h₁
    | cons c t₂ =>
      simp only [List.cons_append, List.cons.injEq] at h
      have := ih t₂ b₁ b₂ (fun hm => h₁ (List.mem_cons_of_mem _ hm))
        (fun hm => h₂ (List.mem_cons_of_mem _ hm)) h.2
      exact ⟨by rw [h.1, this.1], this.2⟩

/-! ## The file name as a list of characters -/

theorem decimal_ofNat_data (n : Nat) : (decimal (Int.ofNat n)).data = Nat.toDigits 10 n := rfl

theorem decimal_negSucc_data (n : Nat) :
    (decimal (Int.negSucc n)).data = '-' :: Nat.toDigits 10 (n + 1) := rfl

theorem fileName_data (t : Int) (s : String) :
    (fileName t s).data
      = "scram-report-".data ++ ((decimal t).data ++ '-' :: (s.data ++ ".json".data)) := by
  simp [fileName, String.data_append]

/-- The part of the name between the fixed pieces determines the tick count and the suffix. -/
theorem decimal_sep_injective (t₁ t₂ : Int) (b₁ b₂ : List Char)
    (h : (decimal t₁).data ++ '-' :: b₁ = (decimal t₂).data ++ '-' :: b₂) :
    t₁ = t₂ ∧ b₁ = b₂ := by
  cases t₁ with
  | ofNat m =>
    cases t₂ with
    | ofNat n =>
      rw [decimal_ofNat_data, decimal_ofNat_data] at h
      have := split_at_separator '-' _ _ _ _ (minus_not_mem_toDigits 10 m)
        (minus_not_mem_toDigits 10 n) h
      exact ⟨by rw [toDigits_injective 10 (by omega) (by omega) m n this.1], this.2⟩
    | negSucc n =>
      rw [decimal_ofNat_data, decimal_negSucc_data] at h
      have := split_at_separator '-' _ [] _ _ (minus_not_mem_toDigits 10 m) (by simp) h
      exact absurd this.1 (toDigits_ne_nil 10 m)
  | negSucc m =>
    cases t₂ with
    | ofNat n =>
      rw [decimal_ofNat_data, decimal_negSucc_data] at h
      have := split_at_separator '-' [] _ _ _ (by simp) (minus_not_mem_toDigits 10 n) h
      exact absurd this.1.symm (toDigits_ne_nil 10 n)
    | negSucc n =>
      rw [decimal_negSucc_data, decimal_negSucc_data] at h
      simp only [List.cons_append, List.cons.injEq, true_and] at h
      have := split_at_separator '-' _ _ _ _ (minus_not_mem_toDigits 10 (m + 1))
        (minus_not_mem_toDigits 10 (n + 1)) h
      have hmn := toDigits_injective 10 (by omega) (by omega) _ _ this.1
      exact ⟨by rw [Nat.succ_injective hmn], this.2⟩

/-! ## Traces of the stages -/

theorem extractMetadata_call (env : Env) (settings : Settings) (a : RiskAnalysis) :
    (extractMetadata env settings a).2.isExtraction = true
      ∧ (extractMetadata env settings a).2.isPersistence = false := by
  unfold extractMetadata
  split <;> simp [Call.isExtraction, Call.isPersistence]

theorem analyzeAndExtract_trace (env : Env) (o m : NapiObject) (w : World) :
    ∃ evs, (analyzeAndExtract env o m w).2.trace = w.trace ++ evs
      ∧ (analyzeAndExtract env o m w).2.files = w.files
      ∧ (∀ e ∈ evs, e.call.isPersistence = false)
      ∧ (∀ e ∈ evs, e.call.isExtraction = true → e.completed = false →
          ∃ ex, (analyzeAndExtract env o m w).1 = .threw ex)
      ∧ (∀ r, (analyzeAndExtract env o m w).1 = .ok r →
          ∃ pre x, evs = pre ++ [x] ∧ x.call.isExtraction = true ∧ x.completed = true) := by
  unfold analyzeAndExtract
  cases env.ScramNodeOptions o with
  | threw ex => simp [World.log, Call.isPersistence, Call.isExtraction]
  | ok settings =>
    simp only []
    cases env.ScramNodeModel m with
    | threw ex => simp [World.log, Call.isPersistence, Call.isExtraction]
    | ok model =>
      simp only []
      cases env.RiskAnalysis_ctor model settings with
      | threw ex => simp [World.log, Call.isPersistence, Call.isExtraction]
      | ok a0 =>
        simp only []
        cases env.Analyze a0 with
        | threw ex => simp [World.log, Call.isPersistence, Call.isExtraction]
        | ok a1 =>
          simp only []
          have hc := extractMetadata_call env settings (a1.set_runtime_metrics
            (buildMetrics (durationSeconds env (env.steady_clock_now 0) (env.steady_clock_now 1))))
          generalize extractMetadata env settings (a1.set_runtime_metrics
            (buildMetrics (durationSeconds env (env.steady_clock_now 0) (env.steady_clock_now 1))))
            = x at hc ⊢
          obtain ⟨out, call⟩ := x
          simp only at hc
          cases out with
          | threw ex =>
            simp only [World.log, List.append_assoc, List.append_cancel_left_eq]
            refine ⟨_, rfl, trivial, ?_, ?_, ?_⟩
            · intro e he
              simp only [List.cons_append, List.nil_append, List.mem_cons, List.mem_singleton,
                List.not_mem_nil, or_false] at he
              rcases he with h | h | h | h | h | h | h | h <;> subst h <;>
                first | rfl | exact hc.2
            · intro e _ _ _
              exact ⟨ex, rfl⟩
            · intro r hr
              cases hr
          | ok S =>
            simp only [World.log, List.append_assoc, List.append_cancel_left_eq]
            refine ⟨_, rfl, trivial, ?_, ?_, ?_⟩
            · intro e he
              simp only [List.cons_append, List.nil_append, List.mem_cons, List.mem_singleton,
                List.not_mem_nil, or_false] at he
              rcases he with h | h | h | h | h | h | h | h <;> subst h <;>
                first | rfl | exact hc.2
            · intro e he h1 h2
              simp only [List.cons_append, List.nil_append, List.mem_cons, List.mem_singleton,
                List.not_mem_nil, or_false] at he
              rcases he with h | h | h | h | h | h | h | h <;> subst h <;>
                first | cases h1 | cases h2
            · intro r _
              exact ⟨[⟨.ScramNodeOptions, true⟩, ⟨.ScramNodeModel, true⟩,
                ⟨.RiskAnalysis_ctor, true⟩, ⟨.steady_clock_now (env.steady_clock_now 0), true⟩,
                ⟨.Analyze, true⟩, ⟨.steady_clock_now (env.steady_clock_now 1), true⟩,
                ⟨.set_runtime_metrics (buildMetrics (durationSeconds env (env.steady_clock_now 0)
                  (env.steady_clock_now 1))), true⟩], ⟨call, true⟩, rfl, hc.1, rfl⟩

theorem removeAfterWrite_trace (env : Env) (path : String) (w : World) :
    ∃ evs, (removeAfterWrite env path w).trace = w.trace ++ evs
      ∧ ∀ e ∈ evs, e.call.isExtraction = false := by
  unfold removeAfterWrite
  split <;> simp [World.log, World.delete, Call.isExtraction]

theorem removeAfterFailure_trace (env : Env) (path : String) (w : World) :
    ∃ evs, (removeAfterFailure env path w).trace = w.trace ++ evs
      ∧ ∀ e ∈ evs, e.call.isExtraction = false := by
  unfold removeAfterFailure
  split
  · simp [World.log, Call.isExtraction]
  · simp only []
    split
    · split <;> simp [World.log, World.delete, Call.isExtraction]
    · simp [World.log, Call.isExtraction]

theorem handleWriteFailure_trace (env : Env) (path : String) (out : Stream) (w : World) :
    ∃ evs, (handleWriteFailure env path out w).2.trace = w.trace ++ evs
      ∧ ∀ e ∈ evs, e.call.isExtraction = false := by
  unfold handleWriteFailure
  simp only []
  split
  · rcases env.ofstream_close out with ⟨res, out₂⟩
    cases res with
    | ok u =>
      obtain ⟨evs, h, hn⟩ := removeAfterFailure_trace env path
        ((w.log .is_open true).log .close true)
      refine ⟨[⟨.is_open, true⟩, ⟨.close, true⟩] ++ evs, ?_, ?_⟩
      · simp only [h]; simp [World.log]
      · intro e he
        rcases List.mem_append.mp he with h | h
        · simp at h; rcases h with h | h <;> subst h <;> rfl
        · exact hn e h
    | threw ex => simp [World.log, Call.isExtraction]
  · obtain ⟨evs, h, hn⟩ := removeAfterFailure_trace env path (w.log .is_open true)
    refine ⟨[⟨.is_open, true⟩] ++ evs, ?_, ?_⟩
    · simp only [h]; simp [World.log]
    · intro e he
      rcases List.mem_append.mp he with h | h
      · simp at h; subst h; rfl
      · exact hn e h

/-- Putting an event in front of a trace extension that has no extraction call. -/
theorem trace_after_log (w : World) (c : Call) (b : Bool) (hc : c.isExtraction = false)
    (w₂ : World)
    (h : ∃ evs, w₂.trace = (w.log c b).trace ++ evs ∧ ∀ e ∈ evs, e.call.isExtraction = false) :
    ∃ evs, w₂.trace = w.trace ++ evs ∧ ∀ e ∈ evs, e.call.isExtraction = false := by
  obtain ⟨evs, h, hn⟩ := h
  refine ⟨⟨c, b⟩ :: evs, ?_, ?_⟩
  · rw [h]; simp [World.log]
  · intro e he
    rcases List.mem_cons.mp he with h | h
    · subst h; exact hc
    · exact hn e h

theorem writeReport_trace (env : Env) (a : RiskAnalysis) (path : String) (w : World) :
    ∃ evs, (writeReport env a path w).2.trace = w.trace ++ evs
      ∧ ∀ e ∈ evs, e.call.isExtraction = false := by
  unfold writeReport
  rcases env.ScramNodeReportToJsonStream openedStream a false with ⟨res, out⟩
  rcases res with u | ex
  · simp only []
    apply trace_after_log w (.ScramNodeReportToJsonStream false) true rfl
    rcases env.ofstream_flush out with ⟨res₂, out₂⟩
    rcases res₂ with u₂ | ex₂
    · simp only []
      apply trace_after_log _ .flush true rfl
      rcases env.ofstream_close out₂ with ⟨res₃, out₃⟩
      rcases res₃ with u₃ | ex₃
      · simp only []
        apply trace_after_log _ .close true rfl
        exact removeAfterWrite_trace env path _
      · cases ex₃ with
        | std what =>
          simp only []
          apply trace_after_log _ .close false rfl
          exact handleWriteFailure_trace env path _ _
        | nonStd =>
          simp only []
          apply trace_after_log _ .close false rfl
          exact ⟨[], by simp, by simp⟩
    · cases ex₂ with
      | std what =>
        simp only []
        apply trace_after_log _ .flush false rfl
        exact handleWriteFailure_trace env path _ _
      | nonStd =>
        simp only []
        apply trace_after_log _ .flush false rfl
        exact ⟨[], by simp, by simp⟩
  · cases ex with
    | std what =>
      simp only []
      apply trace_after_log _ (.ScramNodeReportToJsonStream false) false rfl
      exact handleWriteFailure_trace env path _ _
    | nonStd =>
      simp only []
      apply trace_after_log _ (.ScramNodeReportToJsonStream false) false rfl
      exact ⟨[], by simp, by simp⟩

theorem reportPath_trace (env : Env) (w : World) :
    ∃ evs, (reportPath env w).2.trace = w.trace ++ evs
      ∧ ∀ e ∈ evs, e.call.isExtraction = false := by
  unfold reportPath randomSuffix
  split
  · simp [World.log, Call.isExtraction]
  · simp [World.log, Call.isExtraction]
  · simp only []
    cases env.random_device <;> simp [World.log, Call.isExtraction]

theorem persistReport_trace (env : Env) (a : RiskAnalysis) (w : World) :
    ∃ evs, (persistReport env a w).2.trace = w.trace ++ evs
      ∧ ∀ e ∈ evs, e.call.isExtraction = false := by
  unfold persistReport
  obtain ⟨evs₁, h₁, hn₁⟩ := reportPath_trace env w
  rcases hrp : reportPath env w with ⟨out, w₁⟩
  rw [hrp] at h₁
  simp only at h₁
  cases out with
  | threw ex => exact ⟨evs₁, h₁, hn₁⟩
  | ok path =>
    simp only []
    split
    · obtain ⟨evs₂, h₂, hn₂⟩ := writeReport_trace env a path
        ((w₁.log (.ofstream_open path) true).create path)
      refine ⟨evs₁ ++ [⟨.ofstream_open path, true⟩] ++ evs₂, ?_, ?_⟩
      · rw [h₂]; simp [World.log, World.create, h₁]
      · intro e he
        simp only [List.mem_append, List.mem_singleton] at he
        rcases he with (h | h) | h
        · exact hn₁ e h
        · subst h; rfl
        · exact hn₂ e h
    · refine ⟨evs₁ ++ [⟨.ofstream_open path, false⟩], ?_, ?_⟩
      · simp [World.log, h₁]
      · intro e he
        simp only [List.mem_append, List.mem_singleton] at he
        rcases he with h | h
        · exact hn₁ e h
        · subst h; rfl

/-- In a trace made of a persistence-free part that ends with a completed extraction,
followed by anything, every persistence step has a completed extraction before it. -/
theorem extraction_precedes (A B : List Event)
    (hA : ∀ e ∈ A, e.call.isPersistence = false)
    (hlast : B ≠ [] → ∃ pre x, A = pre ++ [x] ∧ x.call.isExtraction = true ∧ x.completed = true) :
    ∀ (i : Nat) (e : Event), (A ++ B)[i]? = some e → e.call.isPersistence = true →
      ∃ (j : Nat) (x : Event), j < i ∧ (A ++ B)[j]? = some x ∧ x.call.isExtraction = true ∧ x.completed = true := by
  intro i e hi hp
  by_cases hlt : i < A.length
  · rw [List.getElem?_append_left hlt] at hi
    have := hA e (List.getElem?_mem hi)
    rw [hp] at this
    cases this
  · have hB : B ≠ [] := by
      rintro rfl
      rw [List.append_nil] at hi
      obtain ⟨this, -⟩ := List.getElem?_eq_some.mp hi
      exact hlt this
    obtain ⟨pre, x, hAeq, hx, hc⟩ := hlast hB
    refine ⟨pre.length, x, ?_, ?_, hx, hc⟩
    · have : A.length = pre.length + 1 := by rw [hAeq]; simp
      omega
    · rw [hAeq, List.append_assoc, List.getElem?_append_right (le_refl _)]
      simp

theorem tryBlock_order (env : Env) (o m : NapiObject) (files : List String) :
    (∀ (i : Nat) (e : Event), (tryBlock env o m ⟨files, []⟩).2.trace[i]? = some e → e.call.isPersistence = true →
      ∃ (j : Nat) (x : Event), j < i ∧ (tryBlock env o m ⟨files, []⟩).2.trace[j]? = some x
        ∧ x.call.isExtraction = true ∧ x.completed = true)
    ∧ (∀ x ∈ (tryBlock env o m ⟨files, []⟩).2.trace, x.call.isExtraction = true →
        x.completed = false →
        ∀ e ∈ (tryBlock env o m ⟨files, []⟩).2.trace, e.call.isPersistence = false) := by
  obtain ⟨A, hA, -, hnp, hfail, hok⟩ := analyzeAndExtract_trace env o m ⟨files, []⟩
  unfold tryBlock
  rcases h1 : analyzeAndExtract env o m ⟨files, []⟩ with ⟨out, w₁⟩
  rw [h1] at hA hfail hok
  simp only [List.nil_append] at hA
  cases out with
  | threw ex =>
    simp only [hA]
    constructor
    · have := extraction_precedes A [] hnp (fun h => absurd rfl h)
      simpa using this
    · intro _ _ _ _ e he
      exact hnp e he
  | ok r =>
    obtain ⟨a, S⟩ := r
    simp only []
    obtain ⟨B, hB, hne⟩ := persistReport_trace env a w₁
    have htr : (match persistReport env a w₁ with
        | (Outcome.threw ex, w) => (Outcome.threw ex, w)
        | (Outcome.ok _, w) => (Outcome.ok S, w)).2.trace = A ++ B := by
      rw [← hA, ← hB]
      split <;> simp_all
    rw [htr]
    constructor
    · exact extraction_precedes A B hnp (fun _ => hok _ rfl)
    · intro x hx hext hc
      rcases List.mem_append.mp hx with h | h
      · obtain ⟨ex, hex⟩ := hfail x h hext hc
        cases hex
      · rw [hne x h] at hext
        cases hext

/-! ## Stage results on the success path -/

theorem QuantifyModel_valid (env : Env) (files : List String) (o m : NapiObject)
    (rest : List NapiValue) :
    QuantifyModel env files (.object o :: .object m :: rest)
      = match tryBlock env o m ⟨files, []⟩ with
        | (.ok metadata, w) => (.returned metadata, w)
        | (.threw ex, w) => (.thrown (translate ex), w) := by
  simp [QuantifyModel, arg, NapiValue.IsObject, NapiValue.AsObject]

/-- The events of lines 43-61 when the adapters, the constructor and the run succeed. -/
theorem analyzeAndExtract_run (env : Env) (o m : NapiObject) (w : World)
    (settings : Settings) (model : Model) (a₀ a₁ : RiskAnalysis)
    (hO : env.ScramNodeOptions o = .ok settings) (hM : env.ScramNodeModel m = .ok model)
    (hC : env.RiskAnalysis_ctor model settings = .ok a₀) (hA : env.Analyze a₀ = .ok a₁) :
    analyzeAndExtract env o m w
      = match extractMetadata env settings (a₁.set_runtime_metrics (measuredMetrics env)) with
        | (.threw ex, call) =>
          (.threw ex, ⟨w.files, w.trace ++ [⟨.ScramNodeOptions, true⟩, ⟨.ScramNodeModel, true⟩,
            ⟨.RiskAnalysis_ctor, true⟩, ⟨.steady_clock_now (env.steady_clock_now 0), true⟩,
            ⟨.Analyze, true⟩, ⟨.steady_clock_now (env.steady_clock_now 1), true⟩,
            ⟨.set_runtime_metrics (measuredMetrics env), true⟩, ⟨call, false⟩]⟩)
        | (.ok metadata, call) =>
          (.ok (a₁.set_runtime_metrics (measuredMetrics env), metadata),
            ⟨w.files, w.trace ++ [⟨.ScramNodeOptions, true⟩, ⟨.ScramNodeModel, true⟩,
            ⟨.RiskAnalysis_ctor, true⟩, ⟨.steady_clock_now (env.steady_clock_now 0), true⟩,
            ⟨.Analyze, true⟩, ⟨.steady_clock_now (env.steady_clock_now 1), true⟩,
            ⟨.set_runtime_metrics (measuredMetrics env), true⟩, ⟨call, true⟩]⟩) := by
  simp only [analyzeAndExtract, hO, hM, hC, hA, measuredMetrics, World.log, List.append_assoc,
    List.cons_append, List.nil_append]

theorem analyzeAndExtract_ok (env : Env) (o m : NapiObject) (w : World)
    (settings : Settings) (model : Model) (a₀ a₁ : RiskAnalysis) (S : NapiObject)
    (hO : env.ScramNodeOptions o = .ok settings) (hM : env.ScramNodeModel m = .ok model)
    (hC : env.RiskAnalysis_ctor model settings = .ok a₀) (hA : env.Analyze a₀ = .ok a₁)
    (hE : (extractMetadata env settings (a₁.set_runtime_metrics (measuredMetrics env))).1 = .ok S) :
    (analyzeAndExtract env o m w).1 = .ok (a₁.set_runtime_metrics (measuredMetrics env), S)
      ∧ (analyzeAndExtract env o m w).2.files = w.files := by
  rw [analyzeAndExtract_run env o m w settings model a₀ a₁ hO hM hC hA]
  rcases hx : extractMetadata env settings (a₁.set_runtime_metrics (measuredMetrics env))
    with ⟨out, call⟩
  rw [hx] at hE
  simp only at hE
  subst hE
  exact ⟨rfl, rfl⟩

theorem reportPath_ok (env : Env) (w : World) (d : String) (r : Nat)
    (hT : env.temp_directory_path = .ok d) (hR : env.random_device = .ok r) :
    reportPath env w
      = (.ok (env.path_append d (fileName (env.steady_clock_now 2) (hex (r % 2 ^ 64)))),
          ((w.log .temp_directory_path true).log
            (.steady_clock_now (env.steady_clock_now 2)) true).log .random_device true) := by
  simp only [reportPath, randomSuffix, hT, hR]

theorem extractMetadata_not_writer (env : Env) (settings : Settings) (a : RiskAnalysis) :
    (extractMetadata env settings a).2.isWriter = false := by
  unfold extractMetadata
  split <;> rfl

/-- With a resolved temp directory, a random value and an opened file, the persistence
attempt is the write attempt on the generated path. -/
theorem persistReport_opened (env : Env) (a : RiskAnalysis) (w : World) (d : String) (r : Nat)
    (hT : env.temp_directory_path = .ok d) (hR : env.random_device = .ok r)
    (hOpen : env.ofstream_open
      (env.path_append d (fileName (env.steady_clock_now 2) (hex (r % 2 ^ 64)))) = true) :
    persistReport env a w
      = writeReport env a (env.path_append d (fileName (env.steady_clock_now 2) (hex (r % 2 ^ 64))))
          (((((w.log .temp_directory_path true).log
            (.steady_clock_now (env.steady_clock_now 2)) true).log .random_device true).log
            (.ofstream_open
              (env.path_append d (fileName (env.steady_clock_now 2) (hex (r % 2 ^ 64))))) true).create
            (env.path_append d (fileName (env.steady_clock_now 2) (hex (r % 2 ^ 64))))) := by
  simp only [persistReport, reportPath_ok env w d r hT hR, hOpen, if_true]

/-- A validated call whose first stage succeeds continues with the persistence attempt. -/
theorem QuantifyModel_persist (env : Env) (files : List String) (o m : NapiObject)
    (rest : List NapiValue) (settings : Settings) (model : Model) (a₀ a₁ : RiskAnalysis)
    (S : NapiObject)
    (hO : env.ScramNodeOptions o = .ok settings) (hM : env.ScramNodeModel m = .ok model)
    (hC : env.RiskAnalysis_ctor model settings = .ok a₀) (hA : env.Analyze a₀ = .ok a₁)
    (hE : (extractMetadata env settings (a₁.set_runtime_metrics (measuredMetrics env))).1 = .ok S) :
    ∃ w₁ : World, w₁.files = files
      ∧ (∀ e ∈ w₁.trace, e.call.isWriter = false)
      ∧ QuantifyModel env files (.object o :: .object m :: rest)
        = match persistReport env (a₁.set_runtime_metrics (measuredMetrics env)) w₁ with
          | (.threw ex, w) => (.thrown (translate ex), w)
          | (.ok _, w) => (.returned S, w) := by
  rw [QuantifyModel_valid, tryBlock,
    analyzeAndExtract_run env o m _ settings model a₀ a₁ hO hM hC hA]
  have hnw := extractMetadata_not_writer env settings (a₁.set_runtime_metrics (measuredMetrics env))
  rcases hx : extractMetadata env settings (a₁.set_runtime_metrics (measuredMetrics env))
    with ⟨out, call⟩
  rw [hx] at hE hnw
  simp only at hE hnw
  subst hE
  refine ⟨⟨files, [⟨.ScramNodeOptions, true⟩, ⟨.ScramNodeModel, true⟩,
    ⟨.RiskAnalysis_ctor, true⟩, ⟨.steady_clock_now (env.steady_clock_now 0), true⟩,
    ⟨.Analyze, true⟩, ⟨.steady_clock_now (env.steady_clock_now 1), true⟩,
    ⟨.set_runtime_metrics (measuredMetrics env), true⟩, ⟨call, true⟩]⟩, rfl, ?_, ?_⟩
  · intro e he
    simp only [List.nil_append, List.mem_cons, List.mem_singleton, List.not_mem_nil,
      or_false] at he
    rcases he with h | h | h | h | h | h | h | h <;> subst h <;> first | rfl | exact hnw
  · simp only [List.nil_append]
    rcases persistReport env (a₁.set_runtime_metrics (measuredMetrics env))
      ⟨files, [⟨.ScramNodeOptions, true⟩, ⟨.ScramNodeModel, true⟩,
        ⟨.RiskAnalysis_ctor, true⟩, ⟨.steady_clock_now (env.steady_clock_now 0), true⟩,
        ⟨.Analyze, true⟩, ⟨.steady_clock_now (env.steady_clock_now 1), true⟩,
        ⟨.set_runtime_metrics (measuredMetrics env), true⟩, ⟨call, true⟩]⟩ with ⟨out, w₂⟩
    cases out <;> rfl

theorem QuantifyModel_trace_cases (env : Env) (files : List String) (info : List NapiValue) :
    (QuantifyModel env files info).2.trace = []
      ∨ ∃ o m, (QuantifyModel env files info).2.trace = (tryBlock env o m ⟨files, []⟩).2.trace := by
  unfold QuantifyModel
  simp only []
  split
  · exact Or.inl rfl
  · split
    · exact Or.inl rfl
    · split
      · exact Or.inl rfl
      · right
        refine ⟨(arg info 0).AsObject, (arg info 1).AsObject, ?_⟩
        split <;> simp_all

theorem scanResults_iff (results : List Result) :
    scanResults results = true
      ↔ ∃ r ∈ results, ∃ fta, r.fault_tree_analysis = some fta ∧ fta.adaptive_mode_used = true := by
  induction results with
  | nil => simp [scanResults]
  | cons r rest ih =>
    unfold scanResults
    cases hr : r.fault_tree_analysis with
    | none => simp [ih, hr]
    | some fta =>
      cases hf : fta.adaptive_mode_used with
      | true => simp [hr, hf]
      | false =>
        simp only [Bool.false_eq_true, if_false, ih, List.mem_cons, exists_eq_or_imp, hr,
          Option.some.injEq, exists_eq_left', hf, false_or]

/-- C5: a call with fewer than two arguments, or whose first or second argument is not
an object, throws the TypeError "Settings and Model - both are required", "Settings
object required" or "Model object required" (checked in that order, no "SCRAM Error: "
prefix); no collaborator is called (the trace is empty) and the files are untouched. -/
theorem QuantifyModel_rejects_bad_arguments (env : Env) (files : List String)
    (info : List NapiValue) :
    (info.length < 2 →
      QuantifyModel env files info
        = (.thrown ⟨.TypeError, "Settings and Model - both are required"⟩, ⟨files, []⟩))
    ∧ (2 ≤ info.length → (arg info 0).IsObject = false →
      QuantifyModel env files info
        = (.thrown ⟨.TypeError, "Settings object required"⟩, ⟨files, []⟩))
    ∧ (2 ≤ info.length → (arg info 0).IsObject = true → (arg info 1).IsObject = false →
      QuantifyModel env files info
        = (.thrown ⟨.TypeError, "Model object required"⟩, ⟨files, []⟩)) := by
  refine ⟨?_, ?_, ?_⟩
  · intro h
    simp [QuantifyModel, h]
  · intro h h0
    have : ¬ info.length < 2 := by omega
    simp [QuantifyModel, this, h0]
  · intro h h0 h1
    have : ¬ info.length < 2 := by omega
    simp [QuantifyModel, this, h0, h1]

/-- C5 at concrete calls: one argument; a number and an object; an object and a string. -/
theorem QuantifyModel_rejects_bad_arguments_witness :
    QuantifyModel calmEnv ["/tmp/keep"] [.object ⟨"settings"⟩]
        = (.thrown ⟨.TypeError, "Settings and Model - both are required"⟩, ⟨["/tmp/keep"], []⟩)
    ∧ QuantifyModel calmEnv ["/tmp/keep"] [.number 3, .object ⟨"model"⟩]
        = (.thrown ⟨.TypeError, "Settings object required"⟩, ⟨["/tmp/keep"], []⟩)
    ∧ QuantifyModel calmEnv ["/tmp/keep"] [.object ⟨"settings"⟩, .string "model"]
        = (.thrown ⟨.TypeError, "Model object required"⟩, ⟨["/tmp/keep"], []⟩) :=
  ⟨(QuantifyModel_rejects_bad_arguments calmEnv ["/tmp/keep"] [.object ⟨"settings"⟩]).1
      (by decide),
    (QuantifyModel_rejects_bad_arguments calmEnv ["/tmp/keep"]
      [.number 3, .object ⟨"model"⟩]).2.1 (by decide) rfl,
    (QuantifyModel_rejects_bad_arguments calmEnv ["/tmp/keep"]
      [.object ⟨"settings"⟩, .string "model"]).2.2 (by decide) rfl rfl⟩

/-- C6: in a validated call, when the settings adapter, the model adapter, the engine
constructor, the engine run or the metadata extraction throws, the call throws an Error
whose message is "SCRAM Error: " followed by the exception text for a standard
exception, and "SCRAM Error: Unknown exception occurred" otherwise; no Summary is
returned. -/
theorem QuantifyModel_wraps_failure (env : Env) (files : List String) (o m : NapiObject)
    (rest : List NapiValue) (ex : Thrown) (message : String)
    (hmsg : message = match ex with
      | .std what => "SCRAM Error: " ++ what
      | .nonStd => "SCRAM Error: Unknown exception occurred") :
    (env.ScramNodeOptions o = .threw ex →
      (QuantifyModel env files (.object o :: .object m :: rest)).1 = .thrown ⟨.Error, message⟩)
    ∧ (∀ settings, env.ScramNodeOptions o = .ok settings →
        env.ScramNodeModel m = .threw ex →
      (QuantifyModel env files (.object o :: .object m :: rest)).1 = .thrown ⟨.Error, message⟩)
    ∧ (∀ settings model, env.ScramNodeOptions o = .ok settings →
        env.ScramNodeModel m = .ok model → env.RiskAnalysis_ctor model settings = .threw ex →
      (QuantifyModel env files (.object o :: .object m :: rest)).1 = .thrown ⟨.Error, message⟩)
    ∧ (∀ settings model a₀, env.ScramNodeOptions o = .ok settings →
        env.ScramNodeModel m = .ok model → env.RiskAnalysis_ctor model settings = .ok a₀ →
        env.Analyze a₀ = .threw ex →
      (QuantifyModel env files (.object o :: .object m :: rest)).1 = .thrown ⟨.Error, message⟩)
    ∧ (∀ settings model a₀ a₁, env.ScramNodeOptions o = .ok settings →
        env.ScramNodeModel m = .ok model → env.RiskAnalysis_ctor model settings = .ok a₀ →
        env.Analyze a₀ = .ok a₁ →
        (extractMetadata env settings (a₁.set_runtime_metrics (measuredMetrics env))).1
          = .threw ex →
      (QuantifyModel env files (.object o :: .object m :: rest)).1
        = .thrown ⟨.Error, message⟩) := by
  have ht : translate ex = ⟨.Error, message⟩ := by
    subst hmsg
    cases ex <;> rfl
  rw [QuantifyModel_valid]
  refine ⟨?_, ?_, ?_, ?_, ?_⟩
  · intro hO
    simp [tryBlock, analyzeAndExtract, hO, ht]
  · intro settings hO hM
    simp [tryBlock, analyzeAndExtract, hO, hM, ht]
  · intro settings model hO hM hC
    simp [tryBlock, analyzeAndExtract, hO, hM, hC, ht]
  · intro settings model a₀ hO hM hC hA
    simp [tryBlock, analyzeAndExtract, hO, hM, hC, hA, ht]
  · intro settings model a₀ a₁ hO hM hC hA hE
    rw [tryBlock, analyzeAndExtract_run env o m _ settings model a₀ a₁ hO hM hC hA]
    rcases hx : extractMetadata env settings (a₁.set_runtime_metrics (measuredMetrics env))
      with ⟨out, call⟩
    rw [hx] at hE
    simp only at hE
    subst hE
    simp [ht]

/-- C6 at concrete calls: each of the five failure sites, one of them with a
non-standard exception. -/
theorem QuantifyModel_wraps_failure_witness :
    (QuantifyModel badSettingsEnv [] twoObjects).1
        = .thrown ⟨.Error, "SCRAM Error: unknown option"⟩
    ∧ (QuantifyModel badModelEnv [] twoObjects).1
        = .thrown ⟨.Error, "SCRAM Error: undefined gate"⟩
    ∧ (QuantifyModel badEngineEnv [] twoObjects).1
        = .thrown ⟨.Error, "SCRAM Error: no fault tree"⟩
    ∧ (QuantifyModel alienRunEnv [] twoObjects).1
        = .thrown ⟨.Error, "SCRAM Error: Unknown exception occurred"⟩
    ∧ (QuantifyModel badExtractEnv [] twoObjects).1
        = .thrown ⟨.Error, "SCRAM Error: no results"⟩ :=
  ⟨(QuantifyModel_wraps_failure badSettingsEnv [] ⟨"settings"⟩ ⟨"model"⟩ []
      (.std "unknown option") "SCRAM Error: unknown option" (by decide)).1 rfl,
    (QuantifyModel_wraps_failure badModelEnv [] ⟨"settings"⟩ ⟨"model"⟩ []
      (.std "undefined gate") "SCRAM Error: undefined gate" (by decide)).2.1
      ⟨.alternative 0, "settings"⟩ rfl rfl,
    (QuantifyModel_wraps_failure badEngineEnv [] ⟨"settings"⟩ ⟨"model"⟩ []
      (.std "no fault tree") "SCRAM Error: no fault tree" (by decide)).2.2.1
      ⟨.alternative 0, "settings"⟩ ⟨"model"⟩ rfl rfl rfl,
    (QuantifyModel_wraps_failure alienRunEnv [] ⟨"settings"⟩ ⟨"model"⟩ []
      .nonStd "SCRAM Error: Unknown exception occurred" (by decide)).2.2.2.1
      ⟨.alternative 0, "settings"⟩ ⟨"model"⟩ ⟨[], [], none⟩ rfl rfl rfl rfl,
    (QuantifyModel_wraps_failure badExtractEnv [] ⟨"settings"⟩ ⟨"model"⟩ []
      (.std "no results") "SCRAM Error: no results" (by decide)).2.2.2.2
      ⟨.alternative 0, "settings"⟩ ⟨"model"⟩ ⟨[], [], none⟩
      ⟨[⟨none⟩, ⟨some ⟨false⟩⟩], [], none⟩ rfl rfl rfl rfl (by decide)⟩

/-- C1: in the trace of every execution, each step of the persistence attempt
(temp-directory resolution, naming, opening the file, the report writer, the cleanup)
comes after a metadata extraction call that has returned; and when the extraction call
throws, no persistence step occurs at all. -/
theorem QuantifyModel_extraction_before_persistence (env : Env) (files : List String)
    (info : List NapiValue) :
    (∀ (i : Nat) (e : Event), (QuantifyModel env files info).2.trace[i]? = some e →
        e.call.isPersistence = true →
        ∃ (j : Nat) (x : Event), j < i ∧ (QuantifyModel env files info).2.trace[j]? = some x
          ∧ x.call.isExtraction = true ∧ x.completed = true)
    ∧ (∀ x ∈ (QuantifyModel env files info).2.trace, x.call.isExtraction = true →
        x.completed = false →
        ∀ e ∈ (QuantifyModel env files info).2.trace, e.call.isPersistence = false) := by
  rcases QuantifyModel_trace_cases env files info with h | ⟨o, m, h⟩
  · rw [h]
    simp
  · rw [h]
    exact tryBlock_order env o m files

/-- C1 at a concrete call: the temp-directory resolution is event 8 of the trace and
the completed extraction precedes it. -/
theorem QuantifyModel_extraction_before_persistence_witness :
    ∃ (j : Nat) (x : Event), j < 8 ∧ (QuantifyModel calmEnv [] twoObjects).2.trace[j]? = some x
      ∧ x.call.isExtraction = true ∧ x.completed = true :=
  (QuantifyModel_extraction_before_persistence calmEnv [] twoObjects).1 8
    ⟨.temp_directory_path, true⟩ rfl rfl

/-- C2 (amended): when validation, adaptation, the engine run and the metadata extraction
succeed and the temporary file is opened, every failure the report writer raises as a
standard exception is swallowed, provided the `close` of the stream in the handler (line
134) does not itself throw: the call throws nothing and returns exactly the Summary
captured before the write was attempted. -/
theorem QuantifyModel_swallows_writer_exception (env : Env) (files : List String)
    (o m : NapiObject) (rest : List NapiValue) (settings : Settings) (model : Model)
    (a₀ a₁ : RiskAnalysis) (S : NapiObject) (d : String) (r : Nat) (what : String)
    (out : Stream)
    (hO : env.ScramNodeOptions o = .ok settings) (hM : env.ScramNodeModel m = .ok model)
    (hC : env.RiskAnalysis_ctor model settings = .ok a₀) (hA : env.Analyze a₀ = .ok a₁)
    (hE : (extractMetadata env settings (a₁.set_runtime_metrics (measuredMetrics env))).1 = .ok S)
    (hT : env.temp_directory_path = .ok d) (hR : env.random_device = .ok r)
    (hOpen : env.ofstream_open
      (env.path_append d (fileName (env.steady_clock_now 2) (hex (r % 2 ^ 64)))) = true)
    (hW : env.ScramNodeReportToJsonStream openedStream
        (a₁.set_runtime_metrics (measuredMetrics env)) false
      = (.threw (.std what), out))
    (hClose : out.is_open = false ∨ (env.ofstream_close out).1 = .ok ()) :
    (QuantifyModel env files (.object o :: .object m :: rest)).1 = .returned S := by
  obtain ⟨w₁, -, -, h⟩ := QuantifyModel_persist env files o m rest settings model a₀ a₁ S
    hO hM hC hA hE
  rw [h, persistReport_opened env _ w₁ d r hT hR hOpen]
  simp only [writeReport, hW, handleWriteFailure]
  cases hopen : out.is_open with
  | false => simp
  | true =>
    rw [hopen] at hClose
    rcases hClose with hClose | hClose
    · cases hClose
    · rcases hc : env.ofstream_close out with ⟨res, out₂⟩
      rw [hc] at hClose
      simp only at hClose
      subst hClose
      simp

/-- C2 (amended) at a concrete call: the writer throws the standard exception "disk full"
and leaves the stream open without an exception mask, so that `close` succeeds. -/
theorem QuantifyModel_swallows_writer_exception_witness :
    (QuantifyModel faultyWriterEnv [] twoObjects).1 = .returned ⟨"meta"⟩ :=
  QuantifyModel_swallows_writer_exception faultyWriterEnv [] ⟨"settings"⟩ ⟨"model"⟩ []
    ⟨.alternative 0, "settings"⟩ ⟨"model"⟩ ⟨[], [], none⟩
    ⟨[⟨none⟩, ⟨some ⟨false⟩⟩], [], none⟩ ⟨"meta"⟩ "/tmp" 255 "disk full"
    { is_open := true, exceptions := false, failed := true }
    rfl rfl rfl rfl (by decide) rfl rfl rfl rfl (Or.inr rfl)

/-- C2 as stated fails, in two ways. A report writer that throws something other than a
standard exception makes the call throw "SCRAM Error: Unknown exception occurred". A
report writer that has enabled exceptions on the stream and throws the standard
`ios_base::failure` of a failed write enters the handler, whose `close` throws again,
and the call throws "SCRAM Error: basic_ios::clear: iostream error". In both the Summary
had been extracted and the file opened. -/
theorem QuantifyModel_writer_failure_counterexample :
    ((extractMetadata alienWriterEnv ⟨.alternative 0, "settings"⟩ calmAnalysis).1 = .ok ⟨"meta"⟩
      ∧ alienWriterEnv.ofstream_open calmPath = true
      ∧ (alienWriterEnv.ScramNodeReportToJsonStream openedStream calmAnalysis false).1
          = .threw .nonStd
      ∧ (QuantifyModel alienWriterEnv [] twoObjects).1
          = .thrown ⟨.Error, "SCRAM Error: Unknown exception occurred"⟩)
    ∧ ((extractMetadata maskedWriterEnv ⟨.alternative 0, "settings"⟩ calmAnalysis).1
          = .ok ⟨"meta"⟩
      ∧ maskedWriterEnv.ofstream_open calmPath = true
      ∧ (maskedWriterEnv.ScramNodeReportToJsonStream openedStream calmAnalysis false).1
          = .threw (.std "basic_ios::clear: iostream error")
      ∧ (QuantifyModel maskedWriterEnv [] twoObjects).1
          = .thrown ⟨.Error, "SCRAM Error: basic_ios::clear: iostream error"⟩) := by
  decide

/-- C7: in a call that reaches the persistence step, a failure to resolve the temp
directory with text `what` makes the call throw "SCRAM Error: Unable to resolve temp
directory: " followed by `what`, and a temporary file that cannot be opened makes it
throw "SCRAM Error: Failed to create temporary SCRAM report file: " followed by the
generated path; in both cases the captured Summary is not returned and the report writer
is never called. -/
theorem QuantifyModel_fatal_persistence_setup (env : Env) (files : List String)
    (o m : NapiObject) (rest : List NapiValue) (settings : Settings) (model : Model)
    (a₀ a₁ : RiskAnalysis) (S : NapiObject)
    (hO : env.ScramNodeOptions o = .ok settings) (hM : env.ScramNodeModel m = .ok model)
    (hC : env.RiskAnalysis_ctor model settings = .ok a₀) (hA : env.Analyze a₀ = .ok a₁)
    (hE : (extractMetadata env settings (a₁.set_runtime_metrics (measuredMetrics env))).1
      = .ok S) :
    (∀ what, env.temp_directory_path = .threw (.std what) →
      (QuantifyModel env files (.object o :: .object m :: rest)).1
          = .thrown ⟨.Error, "SCRAM Error: Unable to resolve temp directory: " ++ what⟩
      ∧ ∀ e ∈ (QuantifyModel env files (.object o :: .object m :: rest)).2.trace,
          e.call.isWriter = false)
    ∧ (∀ d r, env.temp_directory_path = .ok d → env.random_device = .ok r →
      env.ofstream_open
        (env.path_append d (fileName (env.steady_clock_now 2) (hex (r % 2 ^ 64)))) = false →
      (QuantifyModel env files (.object o :: .object m :: rest)).1
          = .thrown ⟨.Error, "SCRAM Error: Failed to create temporary SCRAM report file: "
              ++ env.path_append d (fileName (env.steady_clock_now 2) (hex (r % 2 ^ 64)))⟩
      ∧ ∀ e ∈ (QuantifyModel env files (.object o :: .object m :: rest)).2.trace,
          e.call.isWriter = false) := by
  obtain ⟨w₁, -, hnw, h⟩ := QuantifyModel_persist env files o m rest settings model a₀ a₁ S
    hO hM hC hA hE
  rw [h]
  constructor
  · intro what hT
    simp only [persistReport, reportPath, hT, translate, World.log]
    refine ⟨?_, ?_⟩
    · rw [← String.append_assoc]
      rfl
    · intro e he
      rcases List.mem_append.mp he with h | h
      · exact hnw e h
      · rw [List.mem_singleton.mp h]
        rfl
  · intro d r hT hR hOpen
    simp only [persistReport, reportPath_ok env w₁ d r hT hR, hOpen, translate, World.log]
    refine ⟨?_, ?_⟩
    · simp only [Bool.false_eq_true, if_false]
      rw [← String.append_assoc]
      rfl
    · intro e he
      simp only [Bool.false_eq_true, if_false, List.append_assoc, List.mem_append,
        List.mem_singleton] at he
      rcases he with h | h | h | h | h
      · exact hnw e h
      all_goals (subst h; rfl)

/-- C7 at concrete calls: an unresolvable temp directory and an unopenable file. -/
theorem QuantifyModel_fatal_persistence_setup_witness :
    ((QuantifyModel noTempEnv [] twoObjects).1
        = .thrown ⟨.Error, "SCRAM Error: Unable to resolve temp directory: "
            ++ "TMPDIR is not a directory"⟩
      ∧ ∀ e ∈ (QuantifyModel noTempEnv [] twoObjects).2.trace, e.call.isWriter = false)
    ∧ ((QuantifyModel readOnlyEnv [] twoObjects).1
        = .thrown ⟨.Error, "SCRAM Error: Failed to create temporary SCRAM report file: "
            ++ readOnlyEnv.path_append "/tmp"
                (fileName (readOnlyEnv.steady_clock_now 2) (hex (255 % 2 ^ 64)))⟩
      ∧ ∀ e ∈ (QuantifyModel readOnlyEnv [] twoObjects).2.trace, e.call.isWriter = false) :=
  ⟨(QuantifyModel_fatal_persistence_setup noTempEnv [] ⟨"settings"⟩ ⟨"model"⟩ []
      ⟨.alternative 0, "settings"⟩ ⟨"model"⟩ ⟨[], [], none⟩
      ⟨[⟨none⟩, ⟨some ⟨false⟩⟩], [], none⟩ ⟨"meta"⟩
      rfl rfl rfl rfl (by decide)).1 "TMPDIR is not a directory" rfl,
    (QuantifyModel_fatal_persistence_setup readOnlyEnv [] ⟨"settings"⟩ ⟨"model"⟩ []
      ⟨.alternative 0, "settings"⟩ ⟨"model"⟩ ⟨[], [], none⟩
      ⟨[⟨none⟩, ⟨some ⟨false⟩⟩], [], none⟩ ⟨"meta"⟩
      rfl rfl rfl rfl (by decide)).2 "/tmp" 255 rfl rfl rfl⟩

/-- C4: the adaptive flag is true exactly when some result has a fault-tree sub-result
present that reports adaptive mode, or the algorithm selector is `kBdd` and the
event-tree results are non-empty; with the flag true the extraction is the full report
`ScramNodeReport(analysis)`, with the flag false it is
`ScramNodeExtractMetadataFromFile("", analysis)`; and a Summary returned by the call is
the value of that extraction on the analysis object carrying the measured metrics. -/
theorem QuantifyModel_adaptive_flag (env : Env) (settings : Settings) (analysis : RiskAnalysis) :
    (has_adaptive settings analysis = true
      ↔ (∃ r ∈ analysis.results, ∃ fta,
            r.fault_tree_analysis = some fta ∧ fta.adaptive_mode_used = true)
          ∨ (settings.algorithm = Algorithm.kBdd ∧ analysis.event_tree_results ≠ []))
    ∧ (has_adaptive settings analysis = true →
        extractMetadata env settings analysis
          = (env.ScramNodeReport analysis, Call.ScramNodeReport))
    ∧ (has_adaptive settings analysis = false →
        extractMetadata env settings analysis
          = (env.ScramNodeExtractMetadataFromFile "" analysis,
              Call.ScramNodeExtractMetadataFromFile ""))
    ∧ (∀ (files : List String) (o m : NapiObject) (rest : List NapiValue) (model : Model)
        (a₀ a₁ : RiskAnalysis) (S : NapiObject),
        env.ScramNodeOptions o = .ok settings → env.ScramNodeModel m = .ok model →
        env.RiskAnalysis_ctor model settings = .ok a₀ → env.Analyze a₀ = .ok a₁ →
        analysis = a₁.set_runtime_metrics (measuredMetrics env) →
        (QuantifyModel env files (.object o :: .object m :: rest)).1 = .returned S →
        (extractMetadata env settings analysis).1 = .ok S) := by
  refine ⟨?_, ?_, ?_, ?_⟩
  · unfold has_adaptive
    simp only [← scanResults_iff]
    cases hs : scanResults analysis.results with
    | true => simp
    | false =>
      cases he : analysis.event_tree_results with
      | nil => simp
      | cons x xs => simp
  · intro h
    simp [extractMetadata, h]
  · intro h
    simp [extractMetadata, h]
  · intro files o m rest model a₀ a₁ S hO hM hC hA ha hret
    subst ha
    rw [QuantifyModel_valid, tryBlock,
      analyzeAndExtract_run env o m _ settings model a₀ a₁ hO hM hC hA] at hret
    rcases hx : extractMetadata env settings (a₁.set_runtime_metrics (measuredMetrics env))
      with ⟨out, call⟩
    rw [hx] at hret
    cases out with
    | threw ex => cases hret
    | ok S₀ =>
      simp only [List.nil_append] at hret
      generalize persistReport env (a₁.set_runtime_metrics (measuredMetrics env))
        ⟨files, [⟨.ScramNodeOptions, true⟩, ⟨.ScramNodeModel, true⟩,
          ⟨.RiskAnalysis_ctor, true⟩, ⟨.steady_clock_now (env.steady_clock_now 0), true⟩,
          ⟨.Analyze, true⟩, ⟨.steady_clock_now (env.steady_clock_now 1), true⟩,
          ⟨.set_runtime_metrics (measuredMetrics env), true⟩, ⟨call, true⟩]⟩ = p at hret
      obtain ⟨out₂, w₂⟩ := p
      cases out₂ with
      | threw ex => cases hret
      | ok u =>
        cases hret
        rfl

/-- C4 at concrete calls: an adaptive fault-tree result selects the full report, whose
value is returned; without one (and without `kBdd`) the fallback with the empty path is
used. -/
theorem QuantifyModel_adaptive_flag_witness :
    extractMetadata adaptiveEnv ⟨.alternative 0, "settings"⟩
        ((⟨[⟨none⟩, ⟨some ⟨true⟩⟩], [], none⟩ : RiskAnalysis).set_runtime_metrics
          (measuredMetrics adaptiveEnv))
      = (adaptiveEnv.ScramNodeReport
          ((⟨[⟨none⟩, ⟨some ⟨true⟩⟩], [], none⟩ : RiskAnalysis).set_runtime_metrics
            (measuredMetrics adaptiveEnv)), Call.ScramNodeReport)
    ∧ (extractMetadata adaptiveEnv ⟨.alternative 0, "settings"⟩
        ((⟨[⟨none⟩, ⟨some ⟨true⟩⟩], [], none⟩ : RiskAnalysis).set_runtime_metrics
          (measuredMetrics adaptiveEnv))).1 = .ok ⟨"full"⟩
    ∧ extractMetadata calmEnv ⟨.alternative 0, "settings"⟩ calmAnalysis
      = (calmEnv.ScramNodeExtractMetadataFromFile "" calmAnalysis,
          Call.ScramNodeExtractMetadataFromFile "") :=
  ⟨(QuantifyModel_adaptive_flag adaptiveEnv ⟨.alternative 0, "settings"⟩
      ((⟨[⟨none⟩, ⟨some ⟨true⟩⟩], [], none⟩ : RiskAnalysis).set_runtime_metrics
        (measuredMetrics adaptiveEnv))).2.1 (by decide),
    (QuantifyModel_adaptive_flag adaptiveEnv ⟨.alternative 0, "settings"⟩
      ((⟨[⟨none⟩, ⟨some ⟨true⟩⟩], [], none⟩ : RiskAnalysis).set_runtime_metrics
        (measuredMetrics adaptiveEnv))).2.2.2 [] ⟨"settings"⟩ ⟨"model"⟩ [] ⟨"model"⟩
      ⟨[], [], none⟩ ⟨[⟨none⟩, ⟨some ⟨true⟩⟩], [], none⟩ ⟨"full"⟩ rfl rfl rfl rfl rfl
      (by decide),
    (QuantifyModel_adaptive_flag calmEnv ⟨.alternative 0, "settings"⟩ calmAnalysis).2.2.1
      (by decide)⟩

/-- C9 (amended): for a temp directory `d`, the tick count `t` read from the steady clock
and a random 64-bit value `r`, the temporary report path is `d` joined by the path
`operator/` with the file name "scram-report-", then the decimal tick count, then "-",
then the hexadecimal rendering of `r`, then ".json". -/
theorem reportPath_name (env : Env) (w : World) (d : String) (r : Nat)
    (hT : env.temp_directory_path = .ok d) (hR : env.random_device = .ok r)
    (hr : r < 2 ^ 64) :
    (reportPath env w).1
      = .ok (env.path_append d
          ("scram-report-" ++ decimal (env.steady_clock_now 2) ++ "-" ++ hex r ++ ".json")) := by
  rw [reportPath_ok env w d r hT hR, Nat.mod_eq_of_lt hr]
  rfl

/-- C9 (amended) at a concrete call: directory "/tmp", tick count 1500, random value 255. -/
theorem reportPath_name_witness :
    (reportPath calmEnv ⟨[], []⟩).1
      = .ok (calmEnv.path_append "/tmp"
          ("scram-report-" ++ decimal (calmEnv.steady_clock_now 2) ++ "-" ++ hex 255 ++ ".json")) :=
  reportPath_name calmEnv ⟨[], []⟩ "/tmp" 255 rfl rfl (by decide)

/-- C9 as stated fails: for directory "/tmp", tick count 1500 and random value 255 the
path is "/tmp/scram-report-1500-ff.json", whose file name does not start with "report-". -/
theorem reportPath_name_counterexample :
    calmEnv.temp_directory_path = .ok "/tmp"
      ∧ calmEnv.steady_clock_now 2 = 1500
      ∧ calmEnv.random_device = .ok 255
      ∧ (reportPath calmEnv ⟨[], []⟩).1 = .ok "/tmp/scram-report-1500-ff.json"
      ∧ (reportPath calmEnv ⟨[], []⟩).1
          ≠ .ok (calmEnv.path_append "/tmp"
              ("report-" ++ decimal 1500 ++ "-" ++ hex 255 ++ ".json")) := by
  decide

/-- C10: the temporary file name is an injective function of the tick count and the
random value: equal names (prefix, decimal tick count with a minus sign when negative,
"-", lowercase hexadecimal without leading zeros, ".json") come from equal tick counts
and equal random values; this holds for all integers and naturals, in particular for
signed 64-bit tick counts and unsigned 64-bit random values. -/
theorem fileName_injective (t₁ t₂ : Int) (r₁ r₂ : Nat)
    (h : fileName t₁ (hex r₁) = fileName t₂ (hex r₂)) : t₁ = t₂ ∧ r₁ = r₂ := by
  have hd := congrArg String.data h
  rw [fileName_data, fileName_data] at hd
  have hd := List.append_cancel_left hd
  obtain ⟨ht, hs⟩ := decimal_sep_injective _ _ _ _ hd
  have hs := List.append_cancel_right hs
  exact ⟨ht, toDigits_injective 16 (by omega) (by omega) _ _ hs⟩

/-- C10 at a concrete pair of names: a negative tick count and the largest 64-bit value. -/
theorem fileName_injective_witness :
    (-1500 : Int) = -1500 ∧ (18446744073709551615 : Nat) = 18446744073709551615 :=
  fileName_injective (-1500) (-1500) 18446744073709551615 18446744073709551615 rfl

end ScramNode
